import Mathlib

/-!
Verification development for the Sport Performance Protocol multi-chain
repository.  The definitions below are shallow embeddings of

* `contracts/opbnb/contracts/DeflatinaryBurn.sol` (Solidity burn engine),
* `contracts/aptos/sources/reward_tiers.move`, `spp_token.move`,
  `deflatinary_burn.move`, `performance_oracle.move` (Move modules),
* the TypeScript chain adapters in `src/modules/blockchain/adapters/`
  (cricket tier selection, Aptos address canonicalisation) and the
  `ChainRegistryService` (health tracking and failover).

Machine integers (`uint256`, `u64`, `u8`) are modelled as `Nat`; Solidity
reverts and Move aborts are modelled as `Except`-style error results that
leave the pre-state unchanged.  On-chain mappings and Move tables are
modelled as association lists.  `keccak256(abi.encodePacked(matchId,
player))` is modelled as the pair `(matchId, player)` (the hash is used
only as a unique key; collisions are assumed absent as usual).
Timestamps (`block.timestamp`, `timestamp::now_seconds()`, `new Date()`)
are passed in as explicit `now` arguments.
-/

namespace SPP

/-! ### Association-list maps

Solidity `mapping`s, Move `Table`s and the registry's JS `Map` are all
modelled as association lists.  `alInsert` mirrors JS `Map.set` (replace
in place, append new keys at the end), which is also adequate for the
Solidity/Move maps where iteration order is irrelevant. -/

deriving instance DecidableEq for Except

def alGet {κ ν : Type} [DecidableEq κ] : List (κ × ν) → κ → Option ν
  | [], _ => none
  | (k0, v0) :: rest, k => if k0 = k then some v0 else alGet rest k

def alGetD {κ ν : Type} [DecidableEq κ] (m : List (κ × ν)) (k : κ) (d : ν) : ν :=
  (alGet m k).getD d

def alContains {κ ν : Type} [DecidableEq κ] (m : List (κ × ν)) (k : κ) : Bool :=
  (alGet m k).isSome

def alInsert {κ ν : Type} [DecidableEq κ] : List (κ × ν) → κ → ν → List (κ × ν)
  | [], k, v => [(k, v)]
  | (k0, v0) :: rest, k, v =>
      if k0 = k then (k, v) :: rest else (k0, v0) :: alInsert rest k v

/-- `m[k] += v` with default `0`, the update pattern used both by the
Solidity player tallies and the Move `player_rewards` / `player_burned`
tables (`contains` / `borrow_mut` / `add`). -/
def alAddTo {κ : Type} [DecidableEq κ] (m : List (κ × Nat)) (k : κ) (v : Nat) :
    List (κ × Nat) :=
  alInsert m k (alGetD m k 0 + v)

/-- Sum of all values of a `Nat`-valued association-list map. -/
def alSum {κ : Type} : List (κ × Nat) → Nat
  | [] => 0
  | (_, v) :: rest => v + alSum rest

theorem alGet_insert_self {κ ν : Type} [DecidableEq κ] (m : List (κ × ν)) (k : κ) (v : ν) :
    alGet (alInsert m k v) k = some v := by
  induction m with
  | nil => simp [alInsert, alGet]
  | cons hd tl ih =>
      obtain ⟨k0, v0⟩ := hd
      by_cases h : k0 = k <;> simp [alInsert, alGet, h, ih]

theorem alGet_insert_ne {κ ν : Type} [DecidableEq κ] (m : List (κ × ν)) (k k2 : κ) (v : ν)
    (hne : k2 ≠ k) : alGet (alInsert m k2 v) k = alGet m k := by
  induction m with
  | nil => simp [alInsert, alGet, hne]
  | cons hd tl ih =>
      obtain ⟨k0, v0⟩ := hd
      by_cases h : k0 = k2
      · subst h; simp [alInsert, alGet, hne]
      · simp [alInsert, alGet, h, ih]

theorem alSum_addTo {κ : Type} [DecidableEq κ] (m : List (κ × Nat)) (k : κ) (v : Nat) :
    alSum (alAddTo m k v) = alSum m + v := by
  induction m with
  | nil => simp [alAddTo, alInsert, alGetD, alGet, alSum]
  | cons hd tl ih =>
      obtain ⟨k0, v0⟩ := hd
      by_cases h : k0 = k
      · subst h
        simp [alAddTo, alInsert, alGetD, alGet, alSum]
        omega
      · simp only [alAddTo, alInsert, alGetD, alGet, if_neg h, alSum] at *
        omega

theorem alGet_mem {κ ν : Type} [DecidableEq κ] {m : List (κ × ν)} {k : κ} {v : ν}
    (h : alGet m k = some v) : (k, v) ∈ m := by
  induction m with
  | nil => simp [alGet] at h
  | cons hd tl ih =>
      obtain ⟨k0, v0⟩ := hd
      by_cases hk : k0 = k
      · subst hk
        simp [alGet] at h
        simp [h]
      · simp [alGet, hk] at h
        exact List.mem_cons_of_mem _ (ih h)

/-! ### Solidity burn engine — `DeflatinaryBurn.sol`

Addresses and `bytes32` values are opaque `Nat`s.  The `onlyOracle`
modifier, the tier tables initialised in the constructor, and
`burnForPerformance` are translated statement by statement.  A revert is
modelled by returning the error together with the unchanged pre-state. -/

inductive SolError : Type
  | InvalidTier
  | InvalidEffortScore
  | NotAuthorized
  | BurnAlreadyExecuted
  | NotOwner
  deriving DecidableEq, Repr

structure SolBurnTransaction : Type where
  matchId : Nat
  player : Nat
  burnAmount : Nat
  rewardAmount : Nat
  tier : Nat
  effortScore : Nat
  timestamp : Nat
  executed : Bool
  deriving DecidableEq, Repr

structure SolBurnState : Type where
  owner : Nat
  oracleContract : Nat
  burnMultipliers : List (Nat × Nat)
  baseRewards : List (Nat × Nat)
  totalBurnedAmount : Nat
  totalRewardsDistributed : Nat
  playerTotalRewards : List (Nat × Nat)
  playerTotalBurned : List (Nat × Nat)
  burnTransactions : List ((Nat × Nat) × SolBurnTransaction)
  deriving DecidableEq, Repr

/-- The constructor of `DeflatinaryBurn`: burn multipliers are stored
multiplied by 10, base rewards in wei (18 decimals). -/
def solConstructor (owner oracleContract : Nat) : SolBurnState where
  owner := owner
  oracleContract := oracleContract
  burnMultipliers :=
    [(0, 15), (1, 30), (2, 25), (3, 30), (4, 15), (5, 40), (6, 13), (7, 20)]
  baseRewards :=
    [(0, 50 * 10 ^ 18), (1, 150 * 10 ^ 18), (2, 100 * 10 ^ 18), (3, 200 * 10 ^ 18),
     (4, 30 * 10 ^ 18), (5, 250 * 10 ^ 18), (6, 40 * 10 ^ 18), (7, 120 * 10 ^ 18)]
  totalBurnedAmount := 0
  totalRewardsDistributed := 0
  playerTotalRewards := []
  playerTotalBurned := []
  burnTransactions := []

/-- `calculateReward(tier, effortScore)`: validates `tier ≤ 7` and
`effortScore ≤ 100`, then computes
`(baseReward * effortScore / 100) * burnMultiplier / 10` with the
contract's stored tables (mapping reads default to `0`). -/
def calculateReward (s : SolBurnState) (tier effortScore : Nat) : Except SolError Nat :=
  if tier > 7 then .error .InvalidTier
  else if effortScore > 100 then .error .InvalidEffortScore
  else
    let baseReward := alGetD s.baseRewards tier 0
    let burnMultiplier := alGetD s.burnMultipliers tier 0
    let effortAdjusted := baseReward * effortScore / 100
    .ok (effortAdjusted * burnMultiplier / 10)

/-- `burnTransactions[keccak(matchId‖player)].executed`, with the mapping's
zero-value default `false` for absent keys. -/
def solBurnExecuted (s : SolBurnState) (matchId player : Nat) : Bool :=
  ((alGet s.burnTransactions (matchId, player)).map (fun t => t.executed)).getD false

/-- `burnForPerformance(matchId, player, tier, effortScore)` under
`onlyOracle`.  Returns `(burnAmount, rewardAmount)` and the post-state;
any revert returns the pre-state unchanged. -/
def burnForPerformance (s : SolBurnState) (sender matchId player tier effortScore now : Nat) :
    Except SolError (Nat × Nat) × SolBurnState :=
  if ¬(sender = s.oracleContract ∨ sender = s.owner) then (.error .NotAuthorized, s)
  else if solBurnExecuted s matchId player then (.error .BurnAlreadyExecuted, s)
  else
    match calculateReward s tier effortScore with
    | .error e => (.error e, s)
    | .ok rewardAmount =>
        let burnAmount := rewardAmount / 10
        let record : SolBurnTransaction :=
          { matchId := matchId, player := player, burnAmount := burnAmount,
            rewardAmount := rewardAmount, tier := tier, effortScore := effortScore,
            timestamp := now, executed := true }
        (.ok (burnAmount, rewardAmount),
          { s with
            burnTransactions := alInsert s.burnTransactions (matchId, player) record
            totalBurnedAmount := s.totalBurnedAmount + burnAmount
            totalRewardsDistributed := s.totalRewardsDistributed + rewardAmount
            playerTotalRewards := alAddTo s.playerTotalRewards player rewardAmount
            playerTotalBurned := alAddTo s.playerTotalBurned player burnAmount })

/-- `updateTier(tier, multiplier, baseReward)` (`onlyOwner`). -/
def solUpdateTier (s : SolBurnState) (sender tier multiplier baseReward : Nat) :
    Except SolError SolBurnState :=
  if sender ≠ s.owner then .error .NotOwner
  else if tier > 7 then .error .InvalidTier
  else .ok { s with
    burnMultipliers := alInsert s.burnMultipliers tier multiplier
    baseRewards := alInsert s.baseRewards tier baseReward }

/-! ### Move modules — `reward_tiers.move`, `spp_token.move`, `deflatinary_burn.move`

Move `address`es are opaque `Nat`s, `vector<u8>` values are `List Nat`.
A Move `abort` is modelled as an error result returned together with the
unchanged pre-state (aborts roll back the whole transaction).  `u64`
arithmetic is modelled on `Nat`; the implicit abort-on-overflow of Move
arithmetic at `2^64` is not modelled (all claim-relevant quantities stay
far below it and an abort would leave the state unchanged anyway). -/

inductive MoveError : Type
  | E_NOT_AUTHORIZED
  | E_MATCH_NOT_FOUND
  | E_ALREADY_BURNED
  | E_INSUFFICIENT_BALANCE
  | E_INVALID_TIER
  | E_MATCH_ALREADY_EXISTS
  | E_MATCH_ALREADY_FINALIZED
  | E_NOT_OWNER
  deriving DecidableEq, Repr

structure TierConfig : Type where
  tier : Nat
  multiplier : Nat
  base_reward : Nat
  min_score : Nat
  deriving DecidableEq, Repr

structure TiersState : Type where
  admin : Nat
  tier_0 : TierConfig
  tier_1 : TierConfig
  tier_2 : TierConfig
  tier_3 : TierConfig
  tier_4 : TierConfig
  tier_5 : TierConfig
  tier_6 : TierConfig
  tier_7 : TierConfig
  deriving DecidableEq, Repr

/-- `reward_tiers::initialize`: multipliers are scaled by 100, base
rewards carry 8 decimals (`50_00000000` etc.). -/
def tiersInit (admin : Nat) : TiersState where
  admin := admin
  tier_0 := ⟨0, 150, 50 * 10 ^ 8, 50⟩
  tier_1 := ⟨1, 300, 150 * 10 ^ 8, 70⟩
  tier_2 := ⟨2, 250, 100 * 10 ^ 8, 60⟩
  tier_3 := ⟨3, 300, 200 * 10 ^ 8, 80⟩
  tier_4 := ⟨4, 150, 30 * 10 ^ 8, 40⟩
  tier_5 := ⟨5, 400, 250 * 10 ^ 8, 90⟩
  tier_6 := ⟨6, 130, 40 * 10 ^ 8, 45⟩
  tier_7 := ⟨7, 200, 120 * 10 ^ 8, 65⟩

/-- `reward_tiers::update_tier` (admin only, tier ≤ 7). -/
def update_tier (ts : TiersState) (sender tier multiplier base_reward min_score : Nat) :
    Except MoveError TiersState :=
  if sender ≠ ts.admin then .error .E_NOT_AUTHORIZED
  else if tier > 7 then .error .E_INVALID_TIER
  else
    let c : TierConfig := ⟨tier, multiplier, base_reward, min_score⟩
    .ok (if tier = 0 then { ts with tier_0 := c }
      else if tier = 1 then { ts with tier_1 := c }
      else if tier = 2 then { ts with tier_2 := c }
      else if tier = 3 then { ts with tier_3 := c }
      else if tier = 4 then { ts with tier_4 := c }
      else if tier = 5 then { ts with tier_5 := c }
      else if tier = 6 then { ts with tier_6 := c }
      else { ts with tier_7 := c })

/-- `reward_tiers::get_tier_config`: aborts with `E_INVALID_TIER` for
`tier > 7`, otherwise returns `(multiplier, base_reward)`. -/
def get_tier_config (ts : TiersState) (tier : Nat) : Except MoveError (Nat × Nat) :=
  if tier > 7 then .error .E_INVALID_TIER
  else
    let config :=
      if tier = 0 then ts.tier_0
      else if tier = 1 then ts.tier_1
      else if tier = 2 then ts.tier_2
      else if tier = 3 then ts.tier_3
      else if tier = 4 then ts.tier_4
      else if tier = 5 then ts.tier_5
      else if tier = 6 then ts.tier_6
      else ts.tier_7
    .ok (config.multiplier, config.base_reward)

/-- The slice of `spp_token` state touched by the burn engine: primary
store balances plus the burn/supply statistics. -/
structure TokenState : Type where
  balances : List (Nat × Nat)
  total_burned : Nat
  circulating_supply : Nat
  deriving DecidableEq, Repr

/-- `spp_token::burn`: `primary_fungible_store::burn` aborts when the
account's balance is below `amount`; on success the stats are updated. -/
def token_burn (t : TokenState) (account amount : Nat) : Except MoveError TokenState :=
  let bal := alGetD t.balances account 0
  if bal < amount then .error .E_INSUFFICIENT_BALANCE
  else .ok
    { balances := alInsert t.balances account (bal - amount)
      total_burned := t.total_burned + amount
      circulating_supply := t.circulating_supply - amount }

/-- `spp_token::mint` as invoked from the burn engine (the engine's
stored `admin` is the module account, so the `E_NOT_OWNER` guard cannot
fire on that call path and is omitted). -/
def token_mint (t : TokenState) (recipient amount : Nat) : TokenState :=
  { t with
    balances := alInsert t.balances recipient (alGetD t.balances recipient 0 + amount)
    circulating_supply := t.circulating_supply + amount }

/-- `deflatinary_burn::BurnRecord`. -/
structure BurnRecord : Type where
  match_id : List Nat
  player : Nat
  burn_amount : Nat
  reward_amount : Nat
  tier : Nat
  effort_score : Nat
  timestamp : Nat
  deriving DecidableEq, Repr

/-- `deflatinary_burn::BurnEngineState` (event handles omitted). -/
structure BurnEngineState : Type where
  admin : Nat
  burn_records : List (List Nat × BurnRecord)
  total_burned : Nat
  total_rewards : Nat
  player_rewards : List (Nat × Nat)
  player_burned : List (Nat × Nat)
  deriving DecidableEq, Repr

/-- `deflatinary_burn::initialize`. -/
def burnEngineInit (admin : Nat) : BurnEngineState where
  admin := admin
  burn_records := []
  total_burned := 0
  total_rewards := 0
  player_rewards := []
  player_burned := []

/-- Combined on-chain state the burn engine transaction touches: its own
resource plus the `spp_token` and `reward_tiers` resources. -/
structure MoveLedger : Type where
  engine : BurnEngineState
  token : TokenState
  tiers : TiersState
  deriving DecidableEq, Repr

/-- `bcs::to_bytes` of an address: 32 bytes. -/
def addrBytes (a : Nat) : List Nat :=
  (List.range 32).map (fun i => a / 256 ^ i % 256)

/-- The burn key `match_id ‖ bcs::to_bytes(&player_addr)` (the same
construction serves as `perf_key` in the oracle). -/
def moveKey (match_id : List Nat) (player : Nat) : List Nat :=
  match_id ++ addrBytes player

/-- `deflatinary_burn::calculate_reward`: reads the tier configuration and
computes `base_reward * multiplier * effort_score / 10000`.  Note that
`effort_score` is not validated here (nor by the caller). -/
def calculate_reward (ts : TiersState) (tier effort_score : Nat) : Except MoveError Nat :=
  match get_tier_config ts tier with
  | .error e => .error e
  | .ok (multiplier, base_reward) =>
      let effort_multiplier := effort_score
      .ok (base_reward * multiplier * effort_multiplier / 10000)

/-- `deflatinary_burn::burn_for_performance`: validates `tier ≤ 7`, aborts
with `E_ALREADY_BURNED` when a record exists under the burn key, burns 10%
of the computed reward from the player, stores the record, updates totals
and per-player tallies, and mints the reward.  (`performance_score` is
accepted but unused, exactly as in the source.) -/
def burn_for_performance (l : MoveLedger)
    (player : Nat) (match_id : List Nat) (tier _performance_score effort_score now : Nat) :
    Except MoveError Unit × MoveLedger :=
  if tier > 7 then (.error .E_INVALID_TIER, l)
  else
    let burn_key := moveKey match_id player
    if alContains l.engine.burn_records burn_key then (.error .E_ALREADY_BURNED, l)
    else
      match calculate_reward l.tiers tier effort_score with
      | .error e => (.error e, l)
      | .ok reward_amount =>
          let burn_amount := reward_amount / 10
          match token_burn l.token player burn_amount with
          | .error e => (.error e, l)
          | .ok token1 =>
              let record : BurnRecord :=
                { match_id := match_id, player := player, burn_amount := burn_amount,
                  reward_amount := reward_amount, tier := tier,
                  effort_score := effort_score, timestamp := now }
              let engine1 : BurnEngineState :=
                { l.engine with
                  burn_records := (burn_key, record) :: l.engine.burn_records
                  total_burned := l.engine.total_burned + burn_amount
                  total_rewards := l.engine.total_rewards + reward_amount
                  player_burned := alAddTo l.engine.player_burned player burn_amount
                  player_rewards := alAddTo l.engine.player_rewards player reward_amount }
              (.ok (), { engine := engine1, token := token_mint token1 player reward_amount,
                         tiers := l.tiers })

/-! ### Move performance oracle — `performance_oracle.move` -/

/-- Match status constants. -/
def STATUS_REGISTERED : Nat := 0
def STATUS_IN_PROGRESS : Nat := 1
def STATUS_FINALIZED : Nat := 2
def STATUS_CANCELLED : Nat := 3

structure MoveMatch : Type where
  match_id : List Nat
  sport : Nat
  status : Nat
  winner : Nat
  data_hash : List Nat
  player_count : Nat
  registered_at : Nat
  finalized_at : Nat
  deriving DecidableEq, Repr

structure Performance : Type where
  match_id : List Nat
  player : Nat
  performance_score : Nat
  effort_score : Nat
  reward_tier : Nat
  timestamp : Nat
  verified : Bool
  deriving DecidableEq, Repr

structure CricketPerformance : Type where
  match_id : List Nat
  player : Nat
  runs : Nat
  balls_faced : Nat
  wickets : Nat
  overs_bowled : Nat
  runs_conceded : Nat
  maiden_overs : Nat
  timestamp : Nat
  deriving DecidableEq, Repr

/-- `performance_oracle::OracleState` (event handles omitted). -/
structure OracleState : Type where
  admin : Nat
  oracle_addresses : List Nat
  match_store : List (List Nat × MoveMatch)
  performance_store : List (List Nat × Performance)
  cricket_performance_store : List (List Nat × CricketPerformance)
  deriving DecidableEq, Repr

def oracleInit (admin : Nat) : OracleState where
  admin := admin
  oracle_addresses := []
  match_store := []
  performance_store := []
  cricket_performance_store := []

/-- The authorization check shared by all oracle entry functions:
`sender == admin || oracle_addresses.contains(sender)`. -/
def oracleAuthorized (s : OracleState) (sender : Nat) : Bool :=
  sender = s.admin || s.oracle_addresses.contains sender

/-- `performance_oracle::add_oracle` (admin only). -/
def add_oracle (s : OracleState) (sender oracle_addr : Nat) :
    Except MoveError Unit × OracleState :=
  if sender ≠ s.admin then (.error .E_NOT_AUTHORIZED, s)
  else (.ok (), { s with oracle_addresses := s.oracle_addresses ++ [oracle_addr] })

/-- `performance_oracle::register_match`. -/
def register_match (s : OracleState) (sender : Nat) (match_id : List Nat) (sport now : Nat) :
    Except MoveError Unit × OracleState :=
  if ¬ oracleAuthorized s sender then (.error .E_NOT_AUTHORIZED, s)
  else if alContains s.match_store match_id then (.error .E_MATCH_ALREADY_EXISTS, s)
  else
    let match_data : MoveMatch :=
      { match_id := match_id, sport := sport, status := STATUS_REGISTERED, winner := 0,
        data_hash := [], player_count := 0, registered_at := now, finalized_at := 0 }
    (.ok (), { s with match_store := (match_id, match_data) :: s.match_store })

/-- `performance_oracle::finalize_match`: aborts `E_MATCH_NOT_FOUND` when
unregistered and `E_MATCH_ALREADY_FINALIZED` when already finalized. -/
def finalize_match (s : OracleState) (sender : Nat) (match_id : List Nat)
    (winner : Nat) (data_hash : List Nat) (now : Nat) :
    Except MoveError Unit × OracleState :=
  if ¬ oracleAuthorized s sender then (.error .E_NOT_AUTHORIZED, s)
  else
    match alGet s.match_store match_id with
    | none => (.error .E_MATCH_NOT_FOUND, s)
    | some match_data =>
        if match_data.status = STATUS_FINALIZED then (.error .E_MATCH_ALREADY_FINALIZED, s)
        else
          let match1 := { match_data with
            status := STATUS_FINALIZED, winner := winner,
            data_hash := data_hash, finalized_at := now }
          (.ok (), { s with match_store := alInsert s.match_store match_id match1 })

/-- `performance_oracle::record_performance`: checks authorization and
match existence, then stores or overwrites the performance under
`match_id ‖ bcs(player)`.  The source performs no finalization check. -/
def record_performance (s : OracleState) (sender : Nat) (match_id : List Nat)
    (player performance_score effort_score reward_tier now : Nat) :
    Except MoveError Unit × OracleState :=
  if ¬ oracleAuthorized s sender then (.error .E_NOT_AUTHORIZED, s)
  else if ¬ alContains s.match_store match_id then (.error .E_MATCH_NOT_FOUND, s)
  else
    let perf_key := moveKey match_id player
    let performance : Performance :=
      { match_id := match_id, player := player, performance_score := performance_score,
        effort_score := effort_score, reward_tier := reward_tier,
        timestamp := now, verified := true }
    (.ok (), { s with performance_store := alInsert s.performance_store perf_key performance })

/-- `performance_oracle::record_cricket_performance`: same guards as
`record_performance` (again no finalization check), storing the raw
cricket counters. -/
def record_cricket_performance (s : OracleState) (sender : Nat) (match_id : List Nat)
    (player runs balls_faced wickets overs_bowled runs_conceded maiden_overs now : Nat) :
    Except MoveError Unit × OracleState :=
  if ¬ oracleAuthorized s sender then (.error .E_NOT_AUTHORIZED, s)
  else if ¬ alContains s.match_store match_id then (.error .E_MATCH_NOT_FOUND, s)
  else
    let perf_key := moveKey match_id player
    let cricket_perf : CricketPerformance :=
      { match_id := match_id, player := player, runs := runs, balls_faced := balls_faced,
        wickets := wickets, overs_bowled := overs_bowled, runs_conceded := runs_conceded,
        maiden_overs := maiden_overs, timestamp := now }
    (.ok (),
      { s with cricket_performance_store :=
          alInsert s.cricket_performance_store perf_key cricket_perf })

/-! ### TypeScript adapters — cricket tier selection

`RewardTier` mirrors the enum in `chain-adapter.interface.ts` (the same
numbering as the Solidity and Move tier constants). -/

inductive RewardTier : Type
  | NIFTY_FIFTY
  | GAYLE_STORM
  | FIVE_WICKET_HAUL
  | HAT_TRICK
  | MAIDEN_MASTER
  | RUN_MACHINE
  | GOLDEN_ARM
  | ALL_ROUNDER
  deriving DecidableEq, Repr

/-- `CricketPerformanceParams` (numeric fields only). -/
structure CricketParams : Type where
  runs : Nat
  ballsFaced : Nat
  wickets : Nat
  oversBowled : Nat
  runsConceded : Nat
  maidenOvers : Nat
  deriving DecidableEq, Repr

/-- `AptosAdapter.determineCricketTier`: an exclusive if/else-if chain,
first matching rule wins. -/
def determineCricketTierAptos (params : CricketParams) : RewardTier :=
  if params.runs ≥ 100 then .GAYLE_STORM
  else if params.runs ≥ 50 then .NIFTY_FIFTY
  else if params.wickets ≥ 5 then .FIVE_WICKET_HAUL
  else if params.wickets ≥ 3 then .HAT_TRICK
  else if params.maidenOvers ≥ 3 then .MAIDEN_MASTER
  else .ALL_ROUNDER

/-- `OpBNBAdapter.determineCricketTier`: textually identical to the Aptos
adapter's chain. -/
def determineCricketTierOpbnb (params : CricketParams) : RewardTier :=
  if params.runs ≥ 100 then .GAYLE_STORM
  else if params.runs ≥ 50 then .NIFTY_FIFTY
  else if params.wickets ≥ 5 then .FIVE_WICKET_HAUL
  else if params.wickets ≥ 3 then .HAT_TRICK
  else if params.maidenOvers ≥ 3 then .MAIDEN_MASTER
  else .ALL_ROUNDER

/-- `ArbitrumAdapter.recordCricketPerformance` tier selection: a sequence
of independent `if` reassignments of `tier` (no `else`), so the **last**
matching rule wins, unlike the other two adapters. -/
def determineCricketTierArbitrum (params : CricketParams) : RewardTier :=
  let tier := RewardTier.ALL_ROUNDER
  let tier := if params.runs ≥ 50 then RewardTier.NIFTY_FIFTY else tier
  let tier := if params.runs ≥ 100 then RewardTier.GAYLE_STORM else tier
  let tier := if params.wickets ≥ 3 then RewardTier.HAT_TRICK else tier
  let tier := if params.wickets ≥ 5 then RewardTier.FIVE_WICKET_HAUL else tier
  let tier := if params.maidenOvers ≥ 3 then RewardTier.MAIDEN_MASTER else tier
  tier

/-! ### Chain registry — `ChainRegistryService`

`ChainType` values are encoded as `Nat` tags (arbitrum = 0, solana = 1,
bnb = 2, opbnb = 3, aptos = 4); adapters are identified by opaque `Nat`
ids.  The JS `Map` of chains is an insertion-ordered association list.
A thrown JS error is an `Except.error`. -/

structure ChainStatus : Type where
  isHealthy : Bool
  lastHealthCheck : Nat
  failureCount : Nat
  lastError : Option Nat
  deriving DecidableEq, Repr

structure ChainEntry : Type where
  adapter : Nat
  status : ChainStatus
  deriving DecidableEq, Repr

structure RegistryConfig : Type where
  healthCheckInterval : Nat
  maxFailures : Nat
  enableFailover : Bool
  primaryChain : Option Nat
  deriving DecidableEq, Repr

/-- The service's built-in configuration defaults. -/
def defaultRegistryConfig : RegistryConfig where
  healthCheckInterval := 60000
  maxFailures := 3
  enableFailover := true
  primaryChain := some 0

structure Registry : Type where
  chains : List (Nat × ChainEntry)
  config : RegistryConfig
  deriving DecidableEq, Repr

inductive RegistryError : Type
  | ChainNotRegistered
  | NoHealthyChains
  deriving DecidableEq, Repr

/-- `registerChain`: stores the adapter keyed by chain type with a fresh
healthy status (`failureCount = 0`). -/
def registerChain (r : Registry) (chainType adapter now : Nat) : Registry :=
  let entry : ChainEntry :=
    { adapter := adapter,
      status := { isHealthy := true, lastHealthCheck := now,
                  failureCount := 0, lastError := none } }
  { r with chains := alInsert r.chains chainType entry }

/-- `getHealthyAdapter`: the configured primary chain first if healthy,
otherwise the first healthy entry in registration order, otherwise the
`No healthy chains available` error. -/
def getHealthyAdapter (r : Registry) : Except RegistryError Nat :=
  let viaPrimary : Option Nat :=
    match r.config.primaryChain with
    | some p =>
        match alGet r.chains p with
        | some entry => if entry.status.isHealthy then some entry.adapter else none
        | none => none
    | none => none
  match viaPrimary with
  | some a => .ok a
  | none =>
      match r.chains.find? (fun ce => ce.2.status.isHealthy) with
      | some ce => .ok ce.2.adapter
      | none => .error .NoHealthyChains

/-- `getAdapter(chainType)`: unregistered chains throw; an unhealthy entry
triggers failover only when `enableFailover` is set — otherwise the entry's
adapter is returned as-is. -/
def getAdapter (r : Registry) (chainType : Nat) : Except RegistryError Nat :=
  match alGet r.chains chainType with
  | none => .error .ChainNotRegistered
  | some entry =>
      if ¬ entry.status.isHealthy ∧ r.config.enableFailover then getHealthyAdapter r
      else .ok entry.adapter

/-- JS `this.config.maxFailures || 3` (`0` is falsy). -/
def effectiveMaxFailures (c : RegistryConfig) : Nat :=
  if c.maxFailures = 0 then 3 else c.maxFailures

/-- `checkChainHealth(chainType)` with the probe outcome passed in as
`probeOk` (the boolean returned by `adapter.healthCheck()`).  A successful
probe resets the failure count to zero and sets the health flag; a failed
probe increments the count and clears the flag once the count reaches the
threshold.  (The `catch` branch of the source differs only in recording a
`lastError` string.) -/
def checkChainHealth (r : Registry) (chainType : Nat) (probeOk : Bool) (now : Nat) :
    Except RegistryError (Bool × Registry) :=
  match alGet r.chains chainType with
  | none => .error .ChainNotRegistered
  | some entry =>
      if probeOk then
        let status1 : ChainStatus :=
          { isHealthy := true, lastHealthCheck := now, failureCount := 0, lastError := none }
        .ok (true, { r with chains := alInsert r.chains chainType { entry with status := status1 } })
      else
        let failureCount1 := entry.status.failureCount + 1
        let isHealthy1 :=
          if failureCount1 ≥ effectiveMaxFailures r.config then false
          else entry.status.isHealthy
        let status1 : ChainStatus :=
          { entry.status with
            lastHealthCheck := now, failureCount := failureCount1, isHealthy := isHealthy1 }
        .ok (false, { r with chains := alInsert r.chains chainType { entry with status := status1 } })

/-! ### Aptos address canonicalisation — `AptosAdapter`

JS strings are modelled as lists of UTF-16 code units (`List Nat`);
`toLowerCase` is modelled on its ASCII fragment (`A`–`Z` ↦ `a`–`z`),
which covers every character the hex-address functions distinguish.
Relevant code points: `48 = '0'`, `120 = 'x'`, `88 = 'X'`. -/

/-- ASCII fragment of `String.prototype.toLowerCase`. -/
def jsLower (c : Nat) : Nat :=
  if 65 ≤ c ∧ c ≤ 90 then c + 32 else c

def lowerStr (s : List Nat) : List Nat := s.map jsLower

/-- `.replace(/^0x/, '')`: removes one leading literal `0x`. -/
def strip0x (s : List Nat) : List Nat :=
  match s with
  | c0 :: c1 :: rest => if c0 = 48 ∧ c1 = 120 then rest else s
  | _ => s

/-- `.padStart(64, '0')`. -/
def padTo64 (s : List Nat) : List Nat :=
  List.replicate (64 - s.length) 48 ++ s

/-- `AptosAdapter.formatAddress`: lower-case, strip one `0x`, left-pad
with zeros to 64 characters, re-attach `0x`. -/
def formatAddressAptos (address : List Nat) : List Nat :=
  48 :: 120 :: padTo64 (strip0x (lowerStr address))

/-- Hexadecimal code points `[a-fA-F0-9]`. -/
def isHexCode (c : Nat) : Bool :=
  decide ((48 ≤ c ∧ c ≤ 57) ∨ (97 ≤ c ∧ c ≤ 102) ∨ (65 ≤ c ∧ c ≤ 70))

/-- `AptosAdapter.validateAddress`: strip one `0x`, then require
`/^[a-fA-F0-9]{1,64}$/`. -/
def validateAddressAptos (address : List Nat) : Bool :=
  let cleanAddress := strip0x address
  decide (1 ≤ cleanAddress.length) && decide (cleanAddress.length ≤ 64)
    && cleanAddress.all isHexCode

/-- A canonical Aptos address as the claim describes the output of
`formatAddress`: `0x` followed by exactly 64 lower-case hex characters. -/
def isCanonicalAptos (s : List Nat) : Bool :=
  match s with
  | c0 :: c1 :: rest =>
      decide (c0 = 48) && decide (c1 = 120) && decide (rest.length = 64) &&
        rest.all (fun c => isHexCode c && decide (jsLower c = c))
  | _ => false

/-! ### Concrete fixture states used by several theorems -/

/-- Unwrap an `Except`, falling back to a default (used only to build
concrete fixture states out of reachable operation results). -/
def exceptD {ε α : Type} (d : α) : Except ε α → α
  | .ok a => a
  | .error _ => d

/-- The Solidity engine as deployed (owner = 1, oracle = 2). -/
def solDeployed : SolBurnState := solConstructor 1 2

/-- Solidity engine after `updateTier(5, 40, 250)` by the owner: the tier
configuration of the claim's boundary example (multiplier 4.0 = 40 at
scale 10, base reward 250). -/
def sol250 : SolBurnState := exceptD solDeployed (solUpdateTier solDeployed 1 5 40 250)

/-- Move tier state after `update_tier(5, 400, 250, 90)` by the admin:
multiplier 4.0 = 400 at scale 100, base reward 250. -/
def tiers250 : TiersState := exceptD (tiersInit 1) (update_tier (tiersInit 1) 1 5 400 250 90)

/-! ### Theorems for the frozen claims -/

/-- **C2.** For every tier in [0,7] and effortScore in [0,100] the reward
computations of both engines return
`floor(baseReward(tier) * effortScore / 100 * multiplier(tier) / scale)`
(scale 10 for Solidity, 100 for Move, i.e. a combined denominator of 1000
resp. 10000); the burn amount is `floor(reward / 10)` in both burn
functions; effortScore = 0 yields reward 0 for every tier; and the
multiplier-400 (scale 100) / baseReward-250 configuration of both engines
yields reward 1000 and burn 100 at effortScore = 100. -/
theorem sppC2 :
    (∀ tier effortScore : Nat, tier ≤ 7 → effortScore ≤ 100 →
      calculateReward solDeployed tier effortScore =
        .ok (alGetD solDeployed.baseRewards tier 0 * effortScore *
          alGetD solDeployed.burnMultipliers tier 0 / 1000)) ∧
    (∀ (ts : TiersState) (tier effortScore multiplier base_reward : Nat),
      get_tier_config ts tier = .ok (multiplier, base_reward) →
      calculate_reward ts tier effortScore =
        .ok (base_reward * effortScore * multiplier / 10000)) ∧
    (∀ (s s1 : SolBurnState) (sender matchId player tier effortScore now b r : Nat),
      burnForPerformance s sender matchId player tier effortScore now = (.ok (b, r), s1) →
      b = r / 10) ∧
    (∀ (l l1 : MoveLedger) (player : Nat) (match_id : List Nat)
        (tier performance_score effort_score now : Nat),
      burn_for_performance l player match_id tier performance_score effort_score now =
        (.ok (), l1) →
      ∃ rec : BurnRecord, alGet l1.engine.burn_records (moveKey match_id player) = some rec ∧
        rec.burn_amount = rec.reward_amount / 10) ∧
    (∀ tier : Nat, tier ≤ 7 → calculateReward solDeployed tier 0 = .ok 0) ∧
    (∀ (ts : TiersState) (tier : Nat), tier ≤ 7 → calculate_reward ts tier 0 = .ok 0) ∧
    calculate_reward tiers250 5 100 = .ok 1000 ∧
    (burnForPerformance sol250 2 10 20 5 100 99).1 = .ok (100, 1000) := by
  refine ⟨?_, ?_, ?_, ?_, ?_, ?_, ?_, ?_⟩
  · intro tier effortScore htier heffort
    interval_cases tier <;>
      · simp only [calculateReward, solDeployed, solConstructor, alGetD, alGet]
        norm_num
        rw [if_neg (by omega)]
        simp only [Except.ok.injEq]
        omega
  · intro ts tier effortScore multiplier base_reward h
    simp only [calculate_reward, h]
    congr 1
    ring_nf
  · intro s s1 sender matchId player tier effortScore now b r h
    unfold burnForPerformance at h
    split at h
    · simp at h
    · split at h
      · simp at h
      · split at h
        · simp at h
        · simp only [Prod.mk.injEq, Except.ok.injEq] at h
          obtain ⟨⟨hb, hr⟩, -⟩ := h
          omega
  · intro l l1 player match_id tier performance_score effort_score now h
    by_cases h1 : tier > 7
    · simp [burn_for_performance, h1] at h
    · by_cases h2 : alContains l.engine.burn_records (moveKey match_id player) = true
      · simp [burn_for_performance, h1, h2] at h
      · cases hc : calculate_reward l.tiers tier effort_score with
        | error e => simp [burn_for_performance, h1, h2, hc] at h
        | ok reward_amount =>
            cases hb : token_burn l.token player (reward_amount / 10) with
            | error e => simp [burn_for_performance, h1, h2, hc, hb] at h
            | ok token1 =>
                simp only [burn_for_performance, if_neg h1, h2, Bool.false_eq_true, if_false,
                  hc, hb, Prod.mk.injEq, Except.ok.injEq, true_and] at h
                subst h
                refine ⟨⟨match_id, player, reward_amount / 10, reward_amount,
                  tier, effort_score, now⟩, ?_, rfl⟩
                simp [alGet]
  · intro tier htier
    interval_cases tier <;> decide
  · intro ts tier htier
    have h8 : ¬ tier > 7 := by omega
    simp [calculate_reward, get_tier_config, h8]
  · decide
  · decide

/-- A Move ledger fixture: freshly initialized burn engine and default
tiers, with player 7 holding a token balance. -/
def moveLedgerFixture : MoveLedger where
  engine := burnEngineInit 1
  token := { balances := [(7, 10 ^ 12)], total_burned := 0, circulating_supply := 10 ^ 18 }
  tiers := tiersInit 1

/-- Witness for C2: the hypotheses of each conjunct are satisfiable, shown
at tier 5 / effortScore 100 for the formulas and at concrete successful
burns for the burn-ratio conjuncts. -/
theorem sppC2_witness :
    (5 ≤ 7 ∧ 100 ≤ 100 ∧
      calculateReward solDeployed 5 100 =
        .ok (alGetD solDeployed.baseRewards 5 0 * 100 *
          alGetD solDeployed.burnMultipliers 5 0 / 1000)) ∧
    (get_tier_config (tiersInit 1) 5 = .ok (400, 250 * 10 ^ 8) ∧
      calculate_reward (tiersInit 1) 5 100 = .ok (250 * 10 ^ 8 * 100 * 400 / 10000)) ∧
    (burnForPerformance solDeployed 2 10 20 0 85 7 =
        (.ok (6375 * 10 ^ 15, 63750 * 10 ^ 15), (burnForPerformance solDeployed 2 10 20 0 85 7).2) ∧
      (6375 * 10 ^ 15 : Nat) = 63750 * 10 ^ 15 / 10) ∧
    (burn_for_performance moveLedgerFixture 7 [1] 0 0 85 10 =
        (.ok (), (burn_for_performance moveLedgerFixture 7 [1] 0 0 85 10).2) ∧
      ∃ rec : BurnRecord,
        alGet (burn_for_performance moveLedgerFixture 7 [1] 0 0 85 10).2.engine.burn_records
          (moveKey [1] 7) = some rec ∧
        rec.burn_amount = rec.reward_amount / 10) :=
  ⟨⟨by decide, by decide, sppC2.1 5 100 (by decide) (by decide)⟩,
   ⟨by decide, sppC2.2.1 (tiersInit 1) 5 100 400 (250 * 10 ^ 8) (by decide)⟩,
   ⟨by decide, by decide⟩,
   ⟨by decide, sppC2.2.2.2.1 moveLedgerFixture
      (burn_for_performance moveLedgerFixture 7 [1] 0 0 85 10).2 7 [1] 0 0 85 10 (by decide)⟩⟩

theorem alContains_cons_of {k k2 : List Nat} {v : BurnRecord} {m : List (List Nat × BurnRecord)}
    (h : alContains m k = true) : alContains ((k2, v) :: m) k = true := by
  simp only [alContains, alGet]
  split <;> simp_all [alContains]

/-- **C1.** Burn idempotency per (matchId, participant) key, in both
engines: a successful burn stores an execution record under the key; once
a record exists, every authorized / tier-valid burn attempt for the same
key fails with `BurnAlreadyExecuted` (Solidity) resp. `E_ALREADY_BURNED`
(Move) and returns the whole engine state unchanged; and no burn call
(for any key, with any outcome) ever removes an existing record. -/
theorem sppC1 :
    (∀ (s s1 : SolBurnState) (sender matchId player tier effortScore now : Nat) (br : Nat × Nat),
      burnForPerformance s sender matchId player tier effortScore now = (.ok br, s1) →
      solBurnExecuted s1 matchId player = true) ∧
    (∀ (s : SolBurnState) (sender matchId player tier effortScore now : Nat),
      (sender = s.oracleContract ∨ sender = s.owner) →
      solBurnExecuted s matchId player = true →
      burnForPerformance s sender matchId player tier effortScore now =
        (.error .BurnAlreadyExecuted, s)) ∧
    (∀ (s : SolBurnState) (sender matchId player matchId2 player2 tier effortScore now : Nat),
      solBurnExecuted s matchId player = true →
      solBurnExecuted (burnForPerformance s sender matchId2 player2 tier effortScore now).2
        matchId player = true) ∧
    (∀ (l l1 : MoveLedger) (player : Nat) (match_id : List Nat)
        (tier performance_score effort_score now : Nat),
      burn_for_performance l player match_id tier performance_score effort_score now =
        (.ok (), l1) →
      alContains l1.engine.burn_records (moveKey match_id player) = true) ∧
    (∀ (l : MoveLedger) (player : Nat) (match_id : List Nat)
        (tier performance_score effort_score now : Nat),
      tier ≤ 7 →
      alContains l.engine.burn_records (moveKey match_id player) = true →
      burn_for_performance l player match_id tier performance_score effort_score now =
        (.error .E_ALREADY_BURNED, l)) ∧
    (∀ (l : MoveLedger) (player player2 : Nat) (match_id match_id2 : List Nat)
        (tier performance_score effort_score now : Nat),
      alContains l.engine.burn_records (moveKey match_id player) = true →
      alContains (burn_for_performance l player2 match_id2 tier
          performance_score effort_score now).2.engine.burn_records
        (moveKey match_id player) = true) := by
  refine ⟨?_, ?_, ?_, ?_, ?_, ?_⟩
  · intro s s1 sender matchId player tier effortScore now br h
    unfold burnForPerformance at h
    split at h
    · simp at h
    · split at h
      · simp at h
      · split at h
        · simp at h
        · simp only [Prod.mk.injEq, Except.ok.injEq] at h
          obtain ⟨-, hs⟩ := h
          subst hs
          simp [solBurnExecuted, alGet_insert_self]
  · intro s sender matchId player tier effortScore now hauth hexec
    simp [burnForPerformance, not_not_intro hauth, hexec]
  · intro s sender matchId player matchId2 player2 tier effortScore now hexec
    by_cases hA : sender = s.oracleContract ∨ sender = s.owner
    · by_cases hB : ((alGet s.burnTransactions (matchId2, player2)).map
          (fun t => t.executed)).getD false = true
      · simpa [burnForPerformance, solBurnExecuted, hA, hB] using hexec
      · cases hc : calculateReward s tier effortScore with
        | error e => simpa [burnForPerformance, solBurnExecuted, hA, hB, hc] using hexec
        | ok rewardAmount =>
            by_cases hkey : (matchId2, player2) = (matchId, player)
            · exfalso
              rw [show matchId2 = matchId from congrArg Prod.fst hkey,
                show player2 = player from congrArg Prod.snd hkey] at hB
              simp [solBurnExecuted] at hexec
              exact hB hexec
            · simpa [burnForPerformance, solBurnExecuted, hA, hB, hc,
                alGet_insert_ne _ _ _ _ hkey] using hexec
    · simpa [burnForPerformance, hA] using hexec
  · intro l l1 player match_id tier performance_score effort_score now h
    by_cases h1 : tier > 7
    · simp [burn_for_performance, h1] at h
    · by_cases h2 : alContains l.engine.burn_records (moveKey match_id player) = true
      · simp [burn_for_performance, h1, h2] at h
      · cases hc : calculate_reward l.tiers tier effort_score with
        | error e => simp [burn_for_performance, h1, h2, hc] at h
        | ok reward_amount =>
            cases hb : token_burn l.token player (reward_amount / 10) with
            | error e => simp [burn_for_performance, h1, h2, hc, hb] at h
            | ok token1 =>
                simp only [burn_for_performance, if_neg h1, h2, Bool.false_eq_true, if_false,
                  hc, hb, Prod.mk.injEq, Except.ok.injEq, true_and] at h
                subst h
                simp [alContains, alGet]
  · intro l player match_id tier performance_score effort_score now htier hcont
    have h1 : ¬ tier > 7 := by omega
    simp [burn_for_performance, h1, hcont]
  · intro l player player2 match_id match_id2 tier performance_score effort_score now hcont
    by_cases h1 : tier > 7
    · simpa [burn_for_performance, h1] using hcont
    · by_cases h2 : alContains l.engine.burn_records (moveKey match_id2 player2) = true
      · simpa [burn_for_performance, h1, h2] using hcont
      · cases hc : calculate_reward l.tiers tier effort_score with
        | error e => simpa [burn_for_performance, h1, h2, hc] using hcont
        | ok reward_amount =>
            cases hb : token_burn l.token player2 (reward_amount / 10) with
            | error e => simpa [burn_for_performance, h1, h2, hc, hb] using hcont
            | ok token1 =>
                simp only [burn_for_performance, if_neg h1, h2, Bool.false_eq_true, if_false,
                  hc, hb]
                exact alContains_cons_of hcont

/-- Witness for C1: a concrete first burn on the deployed Solidity engine
succeeds and stores the record, and the identical second attempt is
rejected with `BurnAlreadyExecuted` leaving the state unchanged; same
scenario on the Move ledger with `E_ALREADY_BURNED`. -/
theorem sppC1_witness :
    (2 = ((burnForPerformance solDeployed 2 10 20 0 85 7).2).oracleContract ∨
      2 = ((burnForPerformance solDeployed 2 10 20 0 85 7).2).owner) ∧
    solBurnExecuted (burnForPerformance solDeployed 2 10 20 0 85 7).2 10 20 = true ∧
    burnForPerformance (burnForPerformance solDeployed 2 10 20 0 85 7).2 2 10 20 0 85 8 =
      (.error .BurnAlreadyExecuted, (burnForPerformance solDeployed 2 10 20 0 85 7).2) ∧
    (0 ≤ 7 ∧
      alContains ((burn_for_performance moveLedgerFixture 7 [1] 0 0 85 10).2).engine.burn_records
        (moveKey [1] 7) = true ∧
      burn_for_performance (burn_for_performance moveLedgerFixture 7 [1] 0 0 85 10).2
          7 [1] 0 0 85 11 =
        (.error .E_ALREADY_BURNED, (burn_for_performance moveLedgerFixture 7 [1] 0 0 85 10).2)) :=
  ⟨by decide, by decide,
   sppC1.2.1 (burnForPerformance solDeployed 2 10 20 0 85 7).2 2 10 20 0 85 8
     (by decide) (by decide),
   by decide, by decide,
   sppC1.2.2.2.2.1 (burn_for_performance moveLedgerFixture 7 [1] 0 0 85 10).2
     7 [1] 0 0 85 11 (by decide) (by decide)⟩

/-! ### The Move burn-engine accounting invariant (C9) -/

/-- Sum of `burn_amount` over all stored burn records. -/
def sumBurn : List (List Nat × BurnRecord) → Nat
  | [] => 0
  | (_, rec) :: rest => rec.burn_amount + sumBurn rest

/-- Sum of `reward_amount` over all stored burn records. -/
def sumReward : List (List Nat × BurnRecord) → Nat
  | [] => 0
  | (_, rec) :: rest => rec.reward_amount + sumReward rest

/-- The accounting invariant of `BurnEngineState`: every record burns
exactly a tenth of its reward, and the running totals agree with both the
per-record sums and the per-player tallies. -/
def MoveInv (e : BurnEngineState) : Prop :=
  (∀ kv ∈ e.burn_records, (kv.2).burn_amount = (kv.2).reward_amount / 10) ∧
  e.total_burned = sumBurn e.burn_records ∧
  e.total_rewards = sumReward e.burn_records ∧
  e.total_burned = alSum e.player_burned ∧
  e.total_rewards = alSum e.player_rewards

/-- One call to `burn_for_performance` as data. -/
structure MoveBurnCall : Type where
  player : Nat
  match_id : List Nat
  tier : Nat
  performance_score : Nat
  effort_score : Nat
  now : Nat
  deriving DecidableEq, Repr

/-- Apply a sequence of `burn_for_performance` calls; an aborting call
leaves the ledger unchanged (its error result is discarded). -/
def applyBurns (calls : List MoveBurnCall) (l : MoveLedger) : MoveLedger :=
  calls.foldl
    (fun acc c =>
      (burn_for_performance acc c.player c.match_id c.tier
        c.performance_score c.effort_score c.now).2) l

theorem moveInv_step (l : MoveLedger) (c : MoveBurnCall) (h : MoveInv l.engine) :
    MoveInv ((burn_for_performance l c.player c.match_id c.tier
      c.performance_score c.effort_score c.now).2).engine := by
  obtain ⟨hrec, htb, htr, hpb, hpr⟩ := h
  by_cases h1 : c.tier > 7
  · simpa [burn_for_performance, h1] using ⟨hrec, htb, htr, hpb, hpr⟩
  · by_cases h2 : alContains l.engine.burn_records (moveKey c.match_id c.player) = true
    · simpa [burn_for_performance, h1, h2] using ⟨hrec, htb, htr, hpb, hpr⟩
    · cases hc : calculate_reward l.tiers c.tier c.effort_score with
      | error e =>
          simpa [burn_for_performance, h1, h2, hc] using ⟨hrec, htb, htr, hpb, hpr⟩
      | ok reward_amount =>
          cases hb : token_burn l.token c.player (reward_amount / 10) with
          | error e =>
              simpa [burn_for_performance, h1, h2, hc, hb] using ⟨hrec, htb, htr, hpb, hpr⟩
          | ok token1 =>
              simp only [burn_for_performance, if_neg h1, h2, Bool.false_eq_true, if_false,
                hc, hb]
              refine ⟨?_, ?_, ?_, ?_, ?_⟩
              · intro kv hkv
                rcases List.mem_cons.mp hkv with hhd | htl
                · subst hhd; rfl
                · exact hrec kv htl
              · simp only [sumBurn]
                omega
              · simp only [sumReward]
                omega
              · simp only [alSum_addTo]
                omega
              · simp only [alSum_addTo]
                omega

theorem moveInv_applyBurns (calls : List MoveBurnCall) (l : MoveLedger)
    (h : MoveInv l.engine) : MoveInv (applyBurns calls l).engine := by
  induction calls generalizing l with
  | nil => simpa [applyBurns] using h
  | cons c cs ih =>
      have hstep := moveInv_step l c h
      simpa [applyBurns] using ih _ hstep

/-- **C9.** After any sequence of `burn_for_performance` calls starting
from a freshly initialized Move burn engine (with arbitrary token and tier
state), every stored record satisfies `burn_amount = reward_amount / 10`,
and `total_burned` / `total_rewards` each equal both the per-record sums
and the per-player tally sums. -/
theorem sppC9 (calls : List MoveBurnCall) (t : TokenState) (ts : TiersState) (admin : Nat) :
    MoveInv (applyBurns calls ⟨burnEngineInit admin, t, ts⟩).engine := by
  apply moveInv_applyBurns
  refine ⟨?_, rfl, rfl, rfl, rfl⟩
  intro kv hkv
  simp [burnEngineInit] at hkv

/-! ### Cricket tier selection divergence (C5) -/

/-- A performance with a century and a five-wicket haul: the priority
order of the claim selects the batting tier `GAYLE_STORM` first. -/
def cricketCentury5W : CricketParams := ⟨100, 60, 5, 10, 20, 0⟩

/-- A performance with a century and three maiden overs. -/
def cricketCentury3M : CricketParams := ⟨100, 60, 0, 10, 20, 3⟩

/-- **C5.** The Aptos and opBNB adapters agree on every input and follow
the claimed priority order, but the Arbitrum adapter's non-exclusive
`if`-chain lets the *last* matching rule win: on a century with five
wickets it returns `FIVE_WICKET_HAUL` (and on a century with three maiden
overs `MAIDEN_MASTER`) where the other adapters return `GAYLE_STORM`, so
tier selection is not the same on every adapter. -/
theorem sppC5 :
    (∀ p : CricketParams, determineCricketTierAptos p = determineCricketTierOpbnb p) ∧
    determineCricketTierAptos cricketCentury5W = .GAYLE_STORM ∧
    determineCricketTierOpbnb cricketCentury5W = .GAYLE_STORM ∧
    determineCricketTierArbitrum cricketCentury5W = .FIVE_WICKET_HAUL ∧
    determineCricketTierAptos cricketCentury3M = .GAYLE_STORM ∧
    determineCricketTierArbitrum cricketCentury3M = .MAIDEN_MASTER := by
  refine ⟨fun p => rfl, by decide, by decide, by decide, by decide, by decide⟩

/-! ### Recording performance on a finalized match (C4) -/

/-- Oracle state after `initialize(admin = 1)`, `register_match([1],
cricket)` and `finalize_match([1], winner 2)`: match `[1]` is FINALIZED. -/
def oracleFinalized : OracleState :=
  (finalize_match (register_match (oracleInit 1) 1 [1] 0 10).2 1 [1] 2 [9] 20).2

/-- **C4.** With match `[1]` FINALIZED, `record_performance` (and
`record_cricket_performance`) still succeed and mutate the performance
store — the Move oracle has no finalization guard, contrary to the claim's
`AlreadyFinalizedError` (`E_MATCH_ALREADY_FINALIZED` is declared but never
raised here). -/
theorem sppC4 :
    (alGet oracleFinalized.match_store [1]).map (fun m => m.status) = some STATUS_FINALIZED ∧
    alGet oracleFinalized.performance_store (moveKey [1] 77) = none ∧
    (record_performance oracleFinalized 1 [1] 77 50 60 0 30).1 = .ok () ∧
    alGet (record_performance oracleFinalized 1 [1] 77 50 60 0 30).2.performance_store
      (moveKey [1] 77) = some ⟨[1], 77, 50, 60, 0, 30, true⟩ ∧
    (record_cricket_performance oracleFinalized 1 [1] 77 100 60 0 0 0 0 40).1 = .ok () := by
  refine ⟨by decide, by decide, by decide, by decide, by decide⟩

/-! ### Out-of-range parameter validation (C6) -/

/-- **C6.** The Solidity engine rejects `tier > 7` and `effortScore > 100`
before any state change; the Move engine rejects `tier > 7` but accepts an
out-of-range effort score: `burn_for_performance` with `effort_score =
101` succeeds and computes a reward from the oversized score (101% of the
base-times-multiplier) instead of failing with a parameter error. -/
theorem sppC6 :
    calculateReward solDeployed 8 50 = .error .InvalidTier ∧
    calculateReward solDeployed 0 101 = .error .InvalidEffortScore ∧
    burn_for_performance moveLedgerFixture 7 [1] 8 0 50 10 =
      (.error .E_INVALID_TIER, moveLedgerFixture) ∧
    (burn_for_performance moveLedgerFixture 7 [1] 0 0 101 10).1 = .ok () ∧
    calculate_reward (tiersInit 1) 0 101 = .ok (50 * 10 ^ 8 * 150 * 101 / 10000) := by
  refine ⟨by decide, by decide, by decide, by decide, by decide⟩

/-! ### Cross-engine reward equality (C3) -/

/-- Solidity engine after owner `updateTier(0, 15, 30)`: multiplier 1.5 at
scale 10, base reward 30. -/
def sol30 : SolBurnState := exceptD solDeployed (solUpdateTier solDeployed 1 0 15 30)

/-- Move tiers after admin `update_tier(0, 150, 30, 50)`: the same
fractional multiplier 1.5 at scale 100 and the same base reward 30. -/
def tiers30 : TiersState := exceptD (tiersInit 1) (update_tier (tiersInit 1) 1 0 150 30 50)

/-- **C3, counterexample.** With the common tier configuration base 30 /
multiplier 1.5 (15 at scale 10, 150 at scale 100) and effortScore 9, the
Solidity engine computes 3 while the Move engine computes 4: the rounding
order differs, so the engines are not identical on every common
configuration. -/
theorem sppC3_cex :
    calculateReward sol30 0 9 = .ok 3 ∧
    calculate_reward tiers30 0 9 = .ok 4 ∧
    (3 : Nat) ≠ 4 := by
  refine ⟨by decide, by decide, by decide⟩

/-- Solidity engine with tier 0 set to multiplier `m` (scale 10) and base
reward `b` by the owner. -/
def solWith (m b : Nat) : SolBurnState := exceptD solDeployed (solUpdateTier solDeployed 1 0 m b)

/-- Move tiers with tier 0 set to multiplier `m100` (scale 100) and base
reward `b` by the admin. -/
def tiersWith (m100 b : Nat) : TiersState :=
  exceptD (tiersInit 1) (update_tier (tiersInit 1) 1 0 m100 b 50)

/-- **C3, amended.** For every common tier configuration whose shared base
reward is divisible by 100 — which holds for every default configuration
of both deployed engines, whose bases carry 18 resp. 8 decimal places —
the Solidity `calculateReward` (multiplier `m` at scale 10) and the Move
`calculate_reward` (multiplier `10 * m` at scale 100) return the same
integer reward `b * (10 * m) * e / 10000` for every effortScore `e ≤ 100`;
for bases not divisible by 100 the engines may differ by rounding. -/
theorem sppC3 (b m e : Nat) (he : e ≤ 100) (hb : 100 ∣ b) :
    calculateReward (solWith m b) 0 e = .ok (b * (10 * m) * e / 10000) ∧
    calculate_reward (tiersWith (10 * m) b) 0 e = .ok (b * (10 * m) * e / 10000) := by
  obtain ⟨k, rfl⟩ := hb
  have hbase : alGetD (solWith m (100 * k)).baseRewards 0 0 = 100 * k := by
    simp [solWith, exceptD, solUpdateTier, solDeployed, solConstructor, alInsert, alGetD, alGet]
  have hmult : alGetD (solWith m (100 * k)).burnMultipliers 0 0 = m := by
    simp [solWith, exceptD, solUpdateTier, solDeployed, solConstructor, alInsert, alGetD, alGet]
  have hcfg : get_tier_config (tiersWith (10 * m) (100 * k)) 0 = .ok (10 * m, 100 * k) := by
    simp [tiersWith, exceptD, update_tier, tiersInit, get_tier_config]
  have harith : 100 * k * e / 100 * m / 10 = 100 * k * (10 * m) * e / 10000 := by
    have h1 : 100 * k * e / 100 = k * e := by
      rw [Nat.mul_assoc, Nat.mul_div_cancel_left _ (by norm_num : (0:Nat) < 100)]
    have h2 : 100 * k * (10 * m) * e = 1000 * (k * e * m) := by ring
    have h3 : (10000 : Nat) = 1000 * 10 := by norm_num
    rw [h1, h2, h3, Nat.mul_div_mul_left _ _ (by norm_num : (0:Nat) < 1000)]
  constructor
  · rw [calculateReward, if_neg (by omega), if_neg (by omega), hbase, hmult]
    show Except.ok (100 * k * e / 100 * m / 10) =
      Except.ok (100 * k * (10 * m) * e / 10000)
    rw [harith]
  · simp only [calculate_reward, hcfg]

/-- Witness for C3 (amended): base 100, multiplier 1.5, effortScore 50
give reward 75 on both engines. -/
theorem sppC3_witness :
    (50 ≤ 100 ∧ (100:Nat) ∣ 100) ∧
    calculateReward (solWith 15 100) 0 50 = .ok (100 * (10 * 15) * 50 / 10000) ∧
    calculate_reward (tiersWith (10 * 15) 100) 0 50 = .ok (100 * (10 * 15) * 50 / 10000) :=
  ⟨⟨by decide, by decide⟩, (sppC3 100 15 50 (by decide) (by decide)).1,
    (sppC3 100 15 50 (by decide) (by decide)).2⟩

/-! ### Registry failover (C7) -/

theorem findHealthy_sound (r : Registry) (a : Nat)
    (h : (match r.chains.find? (fun ce => ce.2.status.isHealthy) with
          | some ce => Except.ok ce.2.adapter
          | none => Except.error RegistryError.NoHealthyChains) = Except.ok a) :
    ∃ kv ∈ r.chains, kv.2.status.isHealthy = true ∧ kv.2.adapter = a := by
  split at h
  · rename_i ce hf
    simp only [Except.ok.injEq] at h
    exact ⟨ce, List.mem_of_find?_eq_some hf, by simpa using List.find?_some hf, h⟩
  · exact absurd h (by simp)

/-- Every adapter handed out by `getHealthyAdapter` belongs to a
registered entry whose status is healthy. -/
theorem getHealthyAdapter_sound (r : Registry) (a : Nat) (h : getHealthyAdapter r = .ok a) :
    ∃ kv ∈ r.chains, kv.2.status.isHealthy = true ∧ kv.2.adapter = a := by
  unfold getHealthyAdapter at h
  rcases hp : r.config.primaryChain with _ | p
  · rw [hp] at h
    exact findHealthy_sound r a h
  · rw [hp] at h
    simp only [] at h
    rcases hpe : alGet r.chains p with _ | pe
    · rw [hpe] at h
      exact findHealthy_sound r a h
    · rw [hpe] at h
      simp only [] at h
      by_cases hh : pe.status.isHealthy = true
      · rw [if_pos hh] at h
        simp only [Except.ok.injEq] at h
        exact ⟨(p, pe), alGet_mem hpe, hh, h⟩
      · rw [if_neg hh] at h
        exact findHealthy_sound r a h

/-- A registry with only chain 3 (adapter 30, unhealthy after 3 failures)
and chain 4 (adapter 40, healthy), failover disabled, no primary. -/
def regNoFailover : Registry where
  chains := [(3, ⟨30, ⟨false, 5, 3, none⟩⟩), (4, ⟨40, ⟨true, 5, 0, none⟩⟩)]
  config := { defaultRegistryConfig with enableFailover := false, primaryChain := none }

/-- **C7, counterexample.** Chain 3 is registered and unhealthy and
failover is disabled, yet `getAdapter(3)` does not fail with any
unavailability error: it returns chain 3's own unhealthy adapter. -/
theorem sppC7_cex :
    (alGet regNoFailover.chains 3).map (fun e => e.status.isHealthy) = some false ∧
    regNoFailover.config.enableFailover = false ∧
    getAdapter regNoFailover 3 = .ok 30 := by
  refine ⟨by decide, by decide, by decide⟩

/-- **C7, amended.** For a registered chain whose status is unhealthy:
with failover enabled, `getAdapter` delegates to `getHealthyAdapter`
(whose result, when it is an adapter, always belongs to a healthy
registered entry, and which fails with the no-healthy-chains error
otherwise); with failover disabled, `getAdapter` returns the unhealthy
entry's own adapter and raises no error. -/
theorem sppC7 (r : Registry) (ct : Nat) (entry : ChainEntry)
    (hget : alGet r.chains ct = some entry)
    (hunhealthy : entry.status.isHealthy = false) :
    (r.config.enableFailover = true →
      getAdapter r ct = getHealthyAdapter r ∧
      ∀ a : Nat, getHealthyAdapter r = .ok a →
        ∃ kv ∈ r.chains, kv.2.status.isHealthy = true ∧ kv.2.adapter = a) ∧
    (r.config.enableFailover = false → getAdapter r ct = .ok entry.adapter) := by
  constructor
  · intro hfo
    refine ⟨?_, fun a h => getHealthyAdapter_sound r a h⟩
    simp [getAdapter, hget, hunhealthy, hfo]
  · intro hfo
    simp [getAdapter, hget, hunhealthy, hfo]

/-- Witness for C7: on a registry with unhealthy chain 3 and healthy
chain 4 (failover enabled via the defaults with no primary), `getAdapter`
on chain 3 fails over to adapter 40. -/
theorem sppC7_witness :
    alGet { regNoFailover with
        config := { regNoFailover.config with enableFailover := true } }.chains 3 =
      some ⟨30, ⟨false, 5, 3, none⟩⟩ ∧
    ({ regNoFailover with
        config := { regNoFailover.config with enableFailover := true } } :
      Registry).config.enableFailover = true ∧
    getAdapter { regNoFailover with
        config := { regNoFailover.config with enableFailover := true } } 3 =
      getHealthyAdapter { regNoFailover with
        config := { regNoFailover.config with enableFailover := true } } ∧
    getHealthyAdapter { regNoFailover with
        config := { regNoFailover.config with enableFailover := true } } = .ok 40 :=
  ⟨by decide, by decide,
    ((sppC7 _ 3 ⟨30, ⟨false, 5, 3, none⟩⟩ (by decide) (by decide)).1 (by decide)).1,
    by decide⟩

/-! ### Registry health transitions (C8) -/

/-- Run one health check, keeping the old registry if the chain was not
registered (fixture helper). -/
def regStep (r : Registry) (ct : Nat) (probeOk : Bool) (now : Nat) : Registry :=
  match checkChainHealth r ct probeOk now with
  | .ok (_, r2) => r2
  | .error _ => r

/-- Failure count and health flag of a registered chain. -/
def chainFlags (r : Registry) (ct : Nat) : Option (Nat × Bool) :=
  (alGet r.chains ct).map (fun e => (e.status.failureCount, e.status.isHealthy))

/-- Registry with chain 0 = adapter 10 (the configured primary) and
chain 1 = adapter 20, both freshly registered healthy. -/
def regAB : Registry :=
  registerChain
    (registerChain { chains := [], config := defaultRegistryConfig } 0 10 1) 1 20 2

/-- `regAB` after three consecutive failed probes of chain 0. -/
def regAdown : Registry := regStep (regStep (regStep regAB 0 false 3) 0 false 4) 0 false 5

/-- `regAdown` after one successful probe of chain 0. -/
def regArecover : Registry := regStep regAdown 0 true 6

/-- **C8, counterexample.** After primary chain 0 went unhealthy (3
failures) and then records one successful probe, its failure counter is 0
but its health flag is `true` immediately — it does not remain UNHEALTHY,
contradicting the claim. -/
theorem sppC8_cex :
    chainFlags regAdown 0 = some (3, false) ∧
    chainFlags regArecover 0 = some (0, true) ∧
    chainFlags regArecover 0 ≠ some (0, false) := by
  refine ⟨by decide, by decide, by decide⟩

/-- **C8, amended.** Given adapters A (primary, chain 0) and B (chain 1):
after 3 consecutive failed probes A is UNHEALTHY with failure count 3 and
`getHealthyAdapter()` returns B; a single successful probe of A then
resets the failure counter to 0 **and** immediately sets A's health flag
back to healthy within the same probe (the source re-marks
`isHealthy = true` on every successful probe rather than leaving the flag
UNHEALTHY). -/
theorem sppC8 :
    chainFlags regAB 0 = some (0, true) ∧
    chainFlags regAdown 0 = some (3, false) ∧
    chainFlags regAdown 1 = some (0, true) ∧
    getHealthyAdapter regAdown = .ok 20 ∧
    chainFlags regArecover 0 = some (0, true) ∧
    getHealthyAdapter regArecover = .ok 10 := by
  refine ⟨by decide, by decide, by decide, by decide, by decide, by decide⟩

/-! ### Aptos address canonicalisation (C10) -/

theorem jsLower_idem (c : Nat) : jsLower (jsLower c) = jsLower c := by
  by_cases h : 65 ≤ c ∧ c ≤ 90
  · simp only [jsLower, if_pos h]
    rw [if_neg (by omega)]
  · simp only [jsLower, if_neg h]

theorem jsLower_48 : jsLower 48 = 48 := by decide

theorem jsLower_120 : jsLower 120 = 120 := by decide

/-- The only pre-images of `'0'` and `'x'` under ASCII lower-casing. -/
theorem jsLower_eq_48 {c : Nat} (h : jsLower c = 48) : c = 48 := by
  unfold jsLower at h
  split at h <;> omega

theorem jsLower_eq_120 {c : Nat} (h : jsLower c = 120) : c = 120 ∨ c = 88 := by
  unfold jsLower at h
  split at h <;> omega

/-- Lower-casing a hex character yields a lower-case hex character. -/
theorem isHexCode_jsLower {c : Nat} (h : isHexCode c = true) :
    isHexCode (jsLower c) = true := by
  simp only [isHexCode, decide_eq_true_eq] at h ⊢
  unfold jsLower
  split <;> omega

theorem lowerStr_fixed {s : List Nat} (h : ∀ x ∈ s, jsLower x = x) : lowerStr s = s := by
  induction s with
  | nil => rfl
  | cons c rest ih =>
      simp only [lowerStr, List.map_cons, List.cons.injEq]
      exact ⟨h c (List.mem_cons_self c rest), ih fun x hx => h x (List.mem_cons_of_mem c hx)⟩

theorem mem_strip0x {s : List Nat} {x : Nat} (h : x ∈ strip0x s) : x ∈ s := by
  unfold strip0x at h
  split at h
  · split at h
    · exact List.mem_cons_of_mem _ (List.mem_cons_of_mem _ h)
    · exact h
  · exact h

theorem padTo64_length (s : List Nat) : (padTo64 s).length = max 64 s.length := by
  simp only [padTo64, List.length_append, List.length_replicate]
  omega

theorem mem_padTo64 {s : List Nat} {x : Nat} (h : x ∈ padTo64 s) : x = 48 ∨ x ∈ s := by
  simp only [padTo64, List.mem_append, List.mem_replicate] at h
  rcases h with ⟨-, h⟩ | h
  · exact Or.inl h
  · exact Or.inr h

theorem padTo64_of_ge {s : List Nat} (h : 64 ≤ s.length) : padTo64 s = s := by
  simp [padTo64, Nat.sub_eq_zero_of_le h]

/-- Under a validated input, stripping the `0x` marker commutes with
lower-casing (`0X` cannot occur in a validated address because `X` is not
a hex character). -/
theorem strip0x_lowerStr {a : List Nat} (hv : validateAddressAptos a = true) :
    strip0x (lowerStr a) = lowerStr (strip0x a) := by
  match a with
  | [] => rfl
  | [c] =>
      simp only [lowerStr, List.map_cons, List.map_nil, strip0x]
  | c0 :: c1 :: rest =>
      by_cases h : c0 = 48 ∧ c1 = 120
      · obtain ⟨rfl, rfl⟩ := h
        simp [strip0x, lowerStr, jsLower_48, jsLower_120]
      · have hns : strip0x (c0 :: c1 :: rest) = c0 :: c1 :: rest := by
          simp [strip0x, h]
        by_cases h2 : jsLower c0 = 48 ∧ jsLower c1 = 120
        · exfalso
          obtain ⟨h20, h21⟩ := h2
          have hc0 : c0 = 48 := jsLower_eq_48 h20
          rcases jsLower_eq_120 h21 with hc1 | hc1
          · exact h ⟨hc0, hc1⟩
          · -- then the validated address starts `0X`, but `X` is not hex
            rw [validateAddressAptos, hns] at hv
            simp only [Bool.and_eq_true, List.all_eq_true] at hv
            have := hv.2 c1 (List.mem_cons_of_mem _ (List.mem_cons_self _ _))
            rw [hc1] at this
            simp [isHexCode] at this
        · simp only [lowerStr, List.map_cons, strip0x, if_neg h2, if_neg h]

theorem isCanonical_validate {s : List Nat} (h : isCanonicalAptos s = true) :
    validateAddressAptos s = true := by
  match s with
  | [] => simp [isCanonicalAptos] at h
  | [c] => simp [isCanonicalAptos] at h
  | c0 :: c1 :: rest =>
      simp only [isCanonicalAptos, Bool.and_eq_true, decide_eq_true_eq,
        List.all_eq_true] at h
      obtain ⟨⟨⟨rfl, rfl⟩, hlen⟩, hall⟩ := h
      rw [validateAddressAptos]
      simp only [strip0x, and_self, if_true, Bool.and_eq_true, decide_eq_true_eq,
        List.all_eq_true]
      exact ⟨⟨by omega, by omega⟩, fun c hc => (hall c hc).1⟩

/-- **C10.** `formatAddress` maps every address accepted by
`validateAddress` to a canonical `0x`-prefixed, lower-case, 64-hex-char
address that `validateAddress` accepts again, and `formatAddress` is
idempotent on every string. -/
theorem sppC10 :
    (∀ a : List Nat, validateAddressAptos a = true →
      isCanonicalAptos (formatAddressAptos a) = true ∧
      validateAddressAptos (formatAddressAptos a) = true) ∧
    (∀ a : List Nat, formatAddressAptos (formatAddressAptos a) = formatAddressAptos a) := by
  have hcanon : ∀ a : List Nat, validateAddressAptos a = true →
      isCanonicalAptos (formatAddressAptos a) = true := by
    intro a hv
    have hcomm := strip0x_lowerStr hv
    have hv2 := hv
    rw [validateAddressAptos] at hv2
    simp only [Bool.and_eq_true, decide_eq_true_eq, List.all_eq_true] at hv2
    obtain ⟨⟨hlen1, hlen64⟩, hhex⟩ := hv2
    rw [formatAddressAptos, hcomm]
    have hlenl : (lowerStr (strip0x a)).length = (strip0x a).length := by
      simp [lowerStr]
    have hlenp : (padTo64 (lowerStr (strip0x a))).length = 64 := by
      rw [padTo64_length, hlenl]
      omega
    have hmemp : ∀ c ∈ padTo64 (lowerStr (strip0x a)),
        isHexCode c = true ∧ jsLower c = c := by
      intro c hc
      rcases mem_padTo64 hc with rfl | hmem
      · exact ⟨by decide, jsLower_48⟩
      · obtain ⟨c0, hc0, rfl⟩ := List.mem_map.mp hmem
        exact ⟨isHexCode_jsLower (hhex c0 hc0), jsLower_idem c0⟩
    simp only [isCanonicalAptos, Bool.and_eq_true, decide_eq_true_eq, List.all_eq_true]
    refine ⟨⟨⟨trivial, trivial⟩, hlenp⟩, fun c hc => hmemp c hc⟩
  refine ⟨fun a hv => ⟨hcanon a hv, isCanonical_validate (hcanon a hv)⟩, ?_⟩
  intro a
  have hfix : ∀ x ∈ padTo64 (strip0x (lowerStr a)), jsLower x = x := by
    intro x hx
    rcases mem_padTo64 hx with rfl | hmem
    · exact jsLower_48
    · obtain ⟨c, -, rfl⟩ := List.mem_map.mp (mem_strip0x hmem)
      exact jsLower_idem c
  have hlen : 64 ≤ (padTo64 (strip0x (lowerStr a))).length := by
    rw [padTo64_length]
    omega
  show formatAddressAptos (48 :: 120 :: padTo64 (strip0x (lowerStr a))) = _
  rw [formatAddressAptos]
  have h1 : lowerStr (48 :: 120 :: padTo64 (strip0x (lowerStr a))) =
      48 :: 120 :: padTo64 (strip0x (lowerStr a)) := by
    apply lowerStr_fixed
    intro x hx
    rcases List.mem_cons.mp hx with rfl | hx2
    · exact jsLower_48
    · rcases List.mem_cons.mp hx2 with rfl | hx3
      · exact jsLower_120
      · exact hfix x hx3
  rw [h1]
  have h2 : strip0x (48 :: 120 :: padTo64 (strip0x (lowerStr a))) =
      padTo64 (strip0x (lowerStr a)) := by
    simp [strip0x]
  rw [h2, padTo64_of_ge hlen]
  rfl

/-- Witness for C10: the single-character address `"a"` is validated and
canonicalised to `0x` followed by 63 zeros and `a`. -/
theorem sppC10_witness :
    validateAddressAptos [97] = true ∧
    isCanonicalAptos (formatAddressAptos [97]) = true ∧
    validateAddressAptos (formatAddressAptos [97]) = true ∧
    formatAddressAptos (formatAddressAptos [97]) = formatAddressAptos [97] :=
  ⟨by decide, (sppC10.1 [97] (by decide)).1, (sppC10.1 [97] (by decide)).2,
    sppC10.2 [97]⟩

end SPP
